import Mathlib

/-!
Verification of the movie.api backend's authentication and routing layer.

The embedding follows the two JavaScript sources: `index.js` (the Express
routes) and the auth module (the `/login` route and `generateJWTToken`).
The repository's `passport.js` (the local and jwt strategies), `models.js`
(the document schemas and their serialization) and the `bcrypt` library are
not among the sources; those pieces are modelled from the specification's
contracts (§4.1, §4.2, §4.4, §4.5) and are marked `Modelled from the spec`
in their doc comments.  Machine time is modelled as epoch seconds (`Nat`).
-/

namespace MovieApi

/-- A stored user document, with the fields `index.js` reads and writes:
`Username`, `Password` (the stored hash), `Email`, `Birthday`,
`FavoriteMovies`. -/
structure UserRecord where
  Username : String
  Password : String
  Email : String
  Birthday : String
  FavoriteMovies : List String
deriving Repr, DecidableEq

/-- The credential store (the `Users` collection), as a list of documents in
insertion order. -/
abbrev UserStore := List UserRecord

/-- `Users.findOne({Username: username})`: the first document whose
`Username` field equals the given value. -/
def findOneUser (store : UserStore) (username : String) : Option UserRecord :=
  store.find? (fun u => u.Username == username)

/-- `Users.findOneAndUpdate({Username: username}, {$set: ...}, {new:true})`:
apply `f` to the first matching document, returning the updated document and
the updated store. -/
def findOneAndUpdate (store : UserStore) (username : String)
    (f : UserRecord → UserRecord) : Option UserRecord × UserStore :=
  match store with
  | [] => (none, [])
  | u :: rest =>
    if u.Username == username then (some (f u), f u :: rest)
    else
      let r := findOneAndUpdate rest username f
      (r.1, u :: r.2)

/-- `Users.findOneAndRemove({Username: username})`: remove the first matching
document, returning the removed document and the remaining store. -/
def findOneAndRemove (store : UserStore) (username : String) :
    Option UserRecord × UserStore :=
  match store with
  | [] => (none, [])
  | u :: rest =>
    if u.Username == username then (some u, rest)
    else
      let r := findOneAndRemove rest username
      (r.1, u :: r.2)

/-- Modelled from the spec (§4.1): the Password Hasher (`bcrypt` in the
source, an external library).  A digest is the salt, a separator, and a
scrambled copy of the plaintext; the salt is embedded in the digest. -/
def hashPassword (salt plaintext : String) : String :=
  salt ++ "$" ++ String.mk plaintext.data.reverse

/-- Modelled from the spec (§4.1): `verify(plaintext, digest)` recomputes the
digest using the salt embedded in `digest` (the prefix before the separator)
and compares. -/
def verifyPassword (plaintext digest : String) : Bool :=
  let salt := String.mk (digest.data.takeWhile (fun c => c ≠ '$'))
  hashPassword salt plaintext == digest

/-- The error taxonomy of spec §7. -/
inductive AuthError where
  | NotFound
  | InvalidCredentials
  | StoreUnavailable
  | MalformedToken
  | BadSignature
  | Expired
deriving Repr, DecidableEq

/-- Modelled from the spec (§4.2): the `local` Authentication Strategy,
defined in the repository's `passport.js`, which is not among the provided
sources.  Looks the username up in the store; `NotFound` when no record
matches, `InvalidCredentials` when the password does not verify against the
stored hash, otherwise the matching record. -/
def authenticate (store : UserStore) (username plaintext : String) :
    Except AuthError UserRecord :=
  match findOneUser store username with
  | none => Except.error AuthError.NotFound
  | some u =>
    if verifyPassword plaintext u.Password then Except.ok u
    else Except.error AuthError.InvalidCredentials

/-- Modelled from the spec (§4.2, §3): the onward serialization of an
authenticated identity (`user.toJSON()`; the schema lives in the
repository's `models.js`, which is not among the provided sources).  The
password hash is excluded from any onward serialization. -/
structure UserIdentity where
  Username : String
  Email : String
  Birthday : String
  FavoriteMovies : List String
deriving Repr, DecidableEq

/-- Modelled from the spec: `user.toJSON()` on a stored document, excluding
the password hash. -/
def toJSON (u : UserRecord) : UserIdentity :=
  { Username := u.Username, Email := u.Email, Birthday := u.Birthday,
    FavoriteMovies := u.FavoriteMovies }

/-- The key/value fields a `UserIdentity` serializes to (its JSON object). -/
def identityClaims (u : UserIdentity) : List (String × String) :=
  [("Username", u.Username), ("Email", u.Email), ("Birthday", u.Birthday),
   ("FavoriteMovies", String.intercalate "," u.FavoriteMovies)]

/-- The secret key used for signing JWTs (`jwtSecret` in the auth module). -/
def jwtSecret : String := "your_jwt_secret"

/-- A token payload: `sub`, `iat`, `exp` (epoch seconds) plus the additional
claims the caller supplied (the serialized user object passed to
`jwt.sign`). -/
structure TokenPayload where
  sub : String
  iat : Nat
  exp : Nat
  claims : List (String × String)
deriving Repr, DecidableEq

/-- Canonical encoding of a payload, the data the signature is computed
over. -/
def encodePayload (p : TokenPayload) : String :=
  p.sub ++ "|" ++ toString p.iat ++ "|" ++ toString p.exp ++ "|" ++
    String.intercalate ";" (p.claims.map (fun kv => kv.1 ++ "=" ++ kv.2))

/-- The HMAC-SHA256-class MAC (spec §4.3), modelled as a computable keyed
function of the encoded payload. -/
def macSign (secret data : String) : String :=
  toString data.length ++ "#" ++ secret ++ "#" ++ data

/-- A signed token: payload plus signature segment. -/
structure Token where
  payload : TokenPayload
  signature : String
deriving Repr, DecidableEq

/-- `jwt.sign(payload, secret, ...)`: attach the MAC of the encoded
payload. -/
def signToken (secret : String) (p : TokenPayload) : Token :=
  { payload := p, signature := macSign secret (encodePayload p) }

/-- The fixed `'7d'` lifetime, in seconds. -/
def sevenDays : Nat := 7 * 24 * 60 * 60

/-- Embeds `generateJWTToken` from the auth module:
`jwt.sign(user, jwtSecret, {subject: user.Username, expiresIn: '7d',
algorithm: 'HS256'})` — the payload is the serialized user, `sub` is its
`Username`, `iat` is the current time and `exp` is `iat` plus seven days. -/
def generateJWTToken (now : Nat) (user : UserIdentity) : Token :=
  signToken jwtSecret
    { sub := user.Username, iat := now, exp := now + sevenDays,
      claims := identityClaims user }

/-- The token-level checks of the Token Verification Strategy, modelled from
the spec (§4.4): `BadSignature` if the signature does not verify under the
current secret, `Expired` if the current time is at or past `exp`. -/
def tokenCheck (secret : String) (now : Nat) (t : Token) : Except AuthError Unit :=
  if t.signature ≠ macSign secret (encodePayload t.payload) then
    Except.error AuthError.BadSignature
  else if t.payload.exp ≤ now then Except.error AuthError.Expired
  else Except.ok ()

/-- The bearer credential extracted from a request's `Authorization` header:
absent, present but unparsable, or a parsed token. -/
inductive Credential where
  | missing
  | malformed (raw : String)
  | bearer (t : Token)
deriving Repr, DecidableEq

/-- Modelled from the spec (§4.4): the Token Verification Strategy (the jwt
strategy in the repository's `passport.js`, not among the provided sources).
`MalformedToken` when the credential is absent or unparsable, then the
signature and expiry checks, then a second store lookup resolving `sub`
(`NotFound` for a deleted user). -/
def verifyBearer (store : UserStore) (now : Nat) (cred : Credential) :
    Except AuthError UserRecord :=
  match cred with
  | Credential.missing => Except.error AuthError.MalformedToken
  | Credential.malformed _ => Except.error AuthError.MalformedToken
  | Credential.bearer t =>
    match tokenCheck jwtSecret now t with
    | Except.error e => Except.error e
    | Except.ok _ =>
      match findOneUser store t.payload.sub with
      | none => Except.error AuthError.NotFound
      | some u => Except.ok u

/-- The body of a `/login` response: on success `{user, token}`, on failure
`{message, user}` where the failure `user` field is the (absent) identity. -/
inductive LoginBody where
  | ok (user : UserIdentity) (token : Token)
  | fail (message : String) (user : Option UserIdentity)
deriving Repr, DecidableEq

/-- An HTTP response of the `/login` route. -/
structure LoginResponse where
  status : Nat
  body : LoginBody
deriving Repr, DecidableEq

/-- Embeds `router.post('/login')` from the auth module: authenticate with
the local strategy; on any error respond
`400 {message: 'Something is not right', user: null}`; on success respond
with the serialized user and `generateJWTToken(user.toJSON())` (express
`res.json` defaults to status 200). -/
def loginRoute (store : UserStore) (now : Nat) (username password : String) :
    LoginResponse :=
  match authenticate store username password with
  | Except.error _ =>
    { status := 400, body := LoginBody.fail "Something is not right" none }
  | Except.ok u =>
    let user := toJSON u
    { status := 200, body := LoginBody.ok user (generateJWTToken now user) }

/-- An HTTP response of the guarded document routes: a status and either a
plain-text body or a serialized document body. -/
inductive RouteBody where
  | text (s : String)
  | doc (u : Option UserRecord)
deriving Repr, DecidableEq

/-- An HTTP response of a guarded route. -/
structure RouteResponse where
  status : Nat
  body : RouteBody
deriving Repr, DecidableEq

/-- The unauthorized response the guard short-circuits with. -/
def unauthorizedResponse : RouteResponse :=
  { status := 401, body := RouteBody.text "Unauthorized" }

/-- Modelled from the spec (§4.5): the Route Guard
(`passport.authenticate('jwt', {session:false})`): run the Token
Verification Strategy on the request's bearer credential; on any `AuthError`
respond 401 without invoking the wrapped handler; on success invoke the
handler with the resolved identity attached as `req.user`. -/
def routeGuard (store : UserStore) (now : Nat) (cred : Credential)
    (handler : UserRecord → RouteResponse) : RouteResponse :=
  match verifyBearer store now cred with
  | Except.error _ => unauthorizedResponse
  | Except.ok u => handler u

/-- The request body of the user-update route (`req.body` fields the handler
reads). -/
structure UpdateBody where
  Username : String
  Password : String
  Email : String
  Birthday : String
deriving Repr, DecidableEq

/-- Embeds the handler of `app.put('/users/:username')`: reject with
`403 Permission denied` when `req.user.Username !== req.params.username`;
otherwise `findOneAndUpdate` with `$set` of the body fields and respond 200
with the updated document. -/
def putUserHandler (store : UserStore) (authUser : UserRecord)
    (pathUsername : String) (body : UpdateBody) : RouteResponse × UserStore :=
  if authUser.Username ≠ pathUsername then
    ({ status := 403, body := RouteBody.text "Permission denied" }, store)
  else
    let r := findOneAndUpdate store pathUsername (fun u =>
      { u with Username := body.Username, Password := body.Password,
               Email := body.Email, Birthday := body.Birthday })
    ({ status := 200, body := RouteBody.doc r.1 }, r.2)

/-- Embeds the handler of `app.delete('/users/:Username')`: reject with
`403 Permission denied` when `req.user.Username !== req.params.Username`;
otherwise `findOneAndRemove`, responding 404 when nothing matched and 200
when the user was deleted. -/
def deleteUserHandler (store : UserStore) (authUser : UserRecord)
    (pathUsername : String) : RouteResponse × UserStore :=
  if authUser.Username ≠ pathUsername then
    ({ status := 403, body := RouteBody.text "Permission denied" }, store)
  else
    let r := findOneAndRemove store pathUsername
    match r.1 with
    | none =>
      ({ status := 404, body := RouteBody.text (pathUsername ++ " was not found") }, r.2)
    | some _ =>
      ({ status := 200, body := RouteBody.text (pathUsername ++ " was deleted") }, r.2)

/-- Embeds the handler of `app.delete('/users/:Username/movies/:MovieId')`:
the source calls `Users.findOneAndRemove({Username: req.params.Username},
{$pull: {FavoriteMovies: req.params.MovieId}}, {new: true})` — the `$pull`
object sits in the options position of `findOneAndRemove`, so the call
removes the matching document; the response serializes the removed
document. -/
def deleteFavoriteHandler (store : UserStore) (username movieId : String) :
    RouteResponse × UserStore :=
  let r := findOneAndRemove store username
  ({ status := 200, body := RouteBody.doc r.1 }, r.2)

/-- A movie document, with the fields the `index.js` movie routes filter
on. -/
structure MovieRecord where
  Title : String
  Genre : String
  Director : String
  Description : String
deriving Repr, DecidableEq

/-- The movie collection. -/
abbrev MovieStore := List MovieRecord

/-- `req.params`: the path parameters express bound for the route pattern,
as name/value pairs; a absent name reads as `undefined`. -/
abbrev Params := List (String × String)

/-- `req.params.<name>`: `none` models JavaScript `undefined`. -/
def getParam (ps : Params) (name : String) : Option String :=
  ps.lookup name

/-- The value of a movie document's field, by field name. -/
def movieFieldGet (m : MovieRecord) (field : String) : Option String :=
  if field == "Title" then some m.Title
  else if field == "Genre" then some m.Genre
  else if field == "Director" then some m.Director
  else if field == "Description" then some m.Description
  else none

/-- `Movies.findOne({field: value})` where `value` may be `undefined`
(`none`): the ODM strips `undefined` filter values, so a `none` value
matches every document and the first one is returned. -/
def movieFindOne (movies : MovieStore) (field : String) (value : Option String) :
    Option MovieRecord :=
  match value with
  | none => movies.head?
  | some v => movies.find? (fun m => movieFieldGet m field == some v)

/-- Embeds the handler of `app.get('/movies/:title')`: express binds the
lowercase parameter `title`, and the handler queries
`Movies.findOne({Title: req.params.Title})` with the capitalized name. -/
def movieByTitleHandler (movies : MovieStore) (title : String) :
    Option MovieRecord :=
  let params : Params := [("title", title)]
  movieFindOne movies "Title" (getParam params "Title")

/-- Embeds the handler of `app.get('/movies/:Genre/:Description')`: express
binds parameters `Genre` and `Description`, and the handler queries
`Movies.findOne({Genre: req.params.Title})`. -/
def movieByGenreHandler (movies : MovieStore) (genre description : String) :
    Option MovieRecord :=
  let params : Params := [("Genre", genre), ("Description", description)]
  movieFindOne movies "Genre" (getParam params "Title")

/-- Embeds the handler of `app.get('/movies/:Director')`: express binds the
parameter `Director`, and the handler queries
`Movies.findOne({Director: req.params.Title})`. -/
def movieByDirectorHandler (movies : MovieStore) (director : String) :
    Option MovieRecord :=
  let params : Params := [("Director", director)]
  movieFindOne movies "Director" (getParam params "Title")

/-! ### Concrete fixtures used by the witnesses -/

/-- The stored hash of `alice12`'s password. -/
def aliceHash : String := hashPassword "s1" "Secr3t!"

/-- A registered user. -/
def alice : UserRecord :=
  { Username := "alice12"
    Password := aliceHash
    Email := "alice@example.com"
    Birthday := "2000-01-01"
    FavoriteMovies := ["m1"] }

/-- A second registered user. -/
def bob : UserRecord :=
  { Username := "bob99"
    Password := hashPassword "s2" "hunter2"
    Email := "bob@example.com"
    Birthday := "1999-09-09"
    FavoriteMovies := [] }

/-- A demo credential store. -/
def demoStore : UserStore := [alice, bob]

/-- A demo update body. -/
def demoBody : UpdateBody :=
  { Username := "alice12"
    Password := "NewPw1"
    Email := "alice@example.com"
    Birthday := "2000-01-01" }

/-! ### Helper lemmas -/

theorem findOneUser_username {store : UserStore} {username : String}
    {r : UserRecord} (h : findOneUser store username = some r) :
    r.Username = username := by
  unfold findOneUser at h
  simpa using List.find?_some h

theorem findOneAndRemove_split (store : UserStore) (username : String)
    (r : UserRecord) (h : findOneUser store username = some r) :
    ∃ pre post, store = pre ++ r :: post ∧
      (∀ u ∈ pre, (u.Username == username) = false) ∧
      findOneAndRemove store username = (some r, pre ++ post) := by
  induction store with
  | nil => simp [findOneUser] at h
  | cons u rest ih =>
    unfold findOneUser at h
    cases hb : (u.Username == username) with
    | true =>
      simp only [List.find?_cons, hb] at h
      obtain rfl : u = r := by injection h
      exact ⟨[], rest, rfl, by simp, by simp [findOneAndRemove, hb]⟩
    | false =>
      simp only [List.find?_cons, hb] at h
      obtain ⟨pre, post, hsplit, hpre, hrem⟩ := ih h
      refine ⟨u :: pre, post, by simp [hsplit], ?_, ?_⟩
      · intro x hx
        rcases List.mem_cons.mp hx with rfl | hx
        · exact hb
        · exact hpre x hx
      · simp [findOneAndRemove, hb, hrem]

/-! ### Claims -/

/-- C9: the handler of `GET /movies/:title` queries the store with filter
field `Title` bound to `req.params.Title`, but the declared path parameter
is lowercase `title`, so the filter value is `undefined` (`none`) for every
request and the lookup never uses the requested title: the result is
independent of the title path parameter. -/
theorem movieByTitle_ignores_title (movies : MovieStore) (t t' : String) :
    movieByTitleHandler movies t = movieFindOne movies "Title" none ∧
    movieByTitleHandler movies t = movieByTitleHandler movies t' :=
  ⟨rfl, rfl⟩

/-- C8: the movie-by-genre and movie-by-director handlers build their query
from `req.params.Title`, which is not a bound path parameter of either
route, so the filter value is `undefined` (`none`) and the lookup never uses
the requested genre or director value: the result is independent of the
genre/director path parameters. -/
theorem movieByGenreDirector_wrong_field (movies : MovieStore)
    (g g' d d' dir dir' : String) :
    movieByGenreHandler movies g d = movieFindOne movies "Genre" none ∧
    movieByDirectorHandler movies dir = movieFindOne movies "Director" none ∧
    movieByGenreHandler movies g d = movieByGenreHandler movies g' d' ∧
    movieByDirectorHandler movies dir = movieByDirectorHandler movies dir' :=
  ⟨rfl, rfl, rfl, rfl⟩

/-- C4: when the authenticated identity's username differs from the path
parameter, both `PUT /users/:username` and `DELETE /users/:Username` respond
`403 Permission denied` regardless of the request body, and the store is
unchanged. -/
theorem update_delete_permission_denied (store : UserStore)
    (authUser : UserRecord) (pathUsername : String) (body : UpdateBody)
    (h : authUser.Username ≠ pathUsername) :
    putUserHandler store authUser pathUsername body =
      ({ status := 403, body := RouteBody.text "Permission denied" }, store) ∧
    deleteUserHandler store authUser pathUsername =
      ({ status := 403, body := RouteBody.text "Permission denied" }, store) := by
  constructor <;> simp [putUserHandler, deleteUserHandler, h]

/-- C4 witness: authenticated as `alice12`, a `PUT`/`DELETE` on `bob99`
yields `403 Permission denied` and leaves the store unchanged. -/
theorem update_delete_permission_denied_witness :
    putUserHandler demoStore alice "bob99" demoBody =
      ({ status := 403, body := RouteBody.text "Permission denied" }, demoStore) ∧
    deleteUserHandler demoStore alice "bob99" =
      ({ status := 403, body := RouteBody.text "Permission denied" }, demoStore) :=
  update_delete_permission_denied demoStore alice "bob99" demoBody (by decide)

/-- C10: the handler of `DELETE /users/:Username/movies/:MovieId` calls
`Users.findOneAndRemove` on the username, so it removes the entire matching
user record from the store (every field of the record is gone), rather than
removing only the given movie identifier from the record's `FavoriteMovies`
list; the rest of the store is untouched. -/
theorem deleteFavorite_removes_whole_user (store : UserStore)
    (username movieId : String) (r : UserRecord)
    (h : findOneUser store username = some r) :
    ∃ pre post, store = pre ++ r :: post ∧
      (∀ u ∈ pre, (u.Username == username) = false) ∧
      deleteFavoriteHandler store username movieId =
        ({ status := 200, body := RouteBody.doc (some r) }, pre ++ post) := by
  obtain ⟨pre, post, hsplit, hpre, hrem⟩ := findOneAndRemove_split store username r h
  exact ⟨pre, post, hsplit, hpre, by simp [deleteFavoriteHandler, hrem]⟩

/-- C3: for every request to a guarded endpoint, when the bearer credential
is absent or fails verification the response is the 401 unauthorized
response no matter which handler is wrapped (the handler is never invoked);
the wrapped handler runs exactly when verification succeeds, on the
resolved identity. -/
theorem routeGuard_gate (store : UserStore) (now : Nat) (cred : Credential) :
    unauthorizedResponse.status = 401 ∧
    verifyBearer store now Credential.missing =
      Except.error AuthError.MalformedToken ∧
    (∀ e, verifyBearer store now cred = Except.error e →
      ∀ handler, routeGuard store now cred handler = unauthorizedResponse) ∧
    (∀ u, verifyBearer store now cred = Except.ok u →
      ∀ handler, routeGuard store now cred handler = handler u) := by
  refine ⟨rfl, rfl, ?_, ?_⟩
  · intro e he handler
    simp [routeGuard, he]
  · intro u hu handler
    simp [routeGuard, hu]

/-- C3 witness: a request with no credential gets the 401 response, for a
handler that would have answered 200. -/
theorem routeGuard_gate_witness :
    routeGuard demoStore 0 Credential.missing
        (fun u => { status := 200, body := RouteBody.doc (some u) }) =
      unauthorizedResponse :=
  (routeGuard_gate demoStore 0 Credential.missing).2.2.1
    AuthError.MalformedToken rfl
    (fun u => { status := 200, body := RouteBody.doc (some u) })

/-- C5: every `POST /login` success yields status 200 with a body carrying
the serialized user and the issued token; every authentication failure
yields status 400 with body `{message: 'Something is not right', user:
null}`. -/
theorem login_response_contract (store : UserStore) (now : Nat)
    (username password : String) :
    (∀ u, authenticate store username password = Except.ok u →
      loginRoute store now username password =
        { status := 200,
          body := LoginBody.ok (toJSON u) (generateJWTToken now (toJSON u)) }) ∧
    (∀ e, authenticate store username password = Except.error e →
      loginRoute store now username password =
        { status := 400,
          body := LoginBody.fail "Something is not right" none }) := by
  constructor
  · intro u hu
    simp [loginRoute, hu]
  · intro e he
    simp [loginRoute, he]

/-- C5 witness: `alice12` logging in with the right password gets
`200 {user, token}`; with a wrong password, `400` with a `null` user
field. -/
theorem login_response_contract_witness :
    loginRoute demoStore 1000 "alice12" "Secr3t!" =
      { status := 200,
        body := LoginBody.ok (toJSON alice) (generateJWTToken 1000 (toJSON alice)) } ∧
    loginRoute demoStore 1000 "alice12" "wrong" =
      { status := 400, body := LoginBody.fail "Something is not right" none } :=
  ⟨(login_response_contract demoStore 1000 "alice12" "Secr3t!").1 alice (by rfl),
   (login_response_contract demoStore 1000 "alice12" "wrong").2
     AuthError.InvalidCredentials (by rfl)⟩

/-- C6: on every successful login, neither the serialized user in the
response body nor the issued token's payload claims carry a `Password`
field: the stored password hash is excluded from all onward
serialization. -/
theorem login_excludes_password_hash (store : UserStore) (now : Nat)
    (username password : String) (u : UserRecord)
    (h : authenticate store username password = Except.ok u) :
    ∃ user tok,
      loginRoute store now username password =
        { status := 200, body := LoginBody.ok user tok } ∧
      (identityClaims user).lookup "Password" = none ∧
      tok.payload.claims.lookup "Password" = none :=
  ⟨toJSON u, generateJWTToken now (toJSON u), by simp [loginRoute, h], rfl, rfl⟩

/-- C6 witness: `alice12`'s successful login response and token payload
carry no `Password` field. -/
theorem login_excludes_password_hash_witness :
    ∃ user tok,
      loginRoute demoStore 1000 "alice12" "Secr3t!" =
        { status := 200, body := LoginBody.ok user tok } ∧
      (identityClaims user).lookup "Password" = none ∧
      tok.payload.claims.lookup "Password" = none :=
  login_excludes_password_hash demoStore 1000 "alice12" "Secr3t!" alice (by rfl)

/-- C7: a login with an existing username but wrong password and a login
with a nonexistent username produce the same response (same status and same
body), at any request times, so the login endpoint does not let usernames
be enumerated. -/
theorem login_enumeration_resistance (store : UserStore) (now now' : Nat)
    (u1 p1 u2 p2 : String) (r : UserRecord)
    (h1 : findOneUser store u1 = some r)
    (h1p : verifyPassword p1 r.Password = false)
    (h2 : findOneUser store u2 = none) :
    loginRoute store now u1 p1 = loginRoute store now' u2 p2 := by
  simp [loginRoute, authenticate, h1, h1p, h2]

/-- C7 witness: `alice12` with a wrong password and the unregistered
`charlie7` receive identical login responses. -/
theorem login_enumeration_resistance_witness :
    loginRoute demoStore 5 "alice12" "wrongpw" =
      loginRoute demoStore 6 "charlie7" "whatever" :=
  login_enumeration_resistance demoStore 5 6 "alice12" "wrongpw" "charlie7"
    "whatever" alice (by decide) (by decide) (by decide)

/-- C1: for every (username, password) pair matching a stored record,
`authenticate` succeeds with that record, and verifying the token issued
for the resulting identity succeeds and resolves back to the same
username. -/
theorem authenticate_issue_verify_roundtrip (store : UserStore)
    (username password : String) (now : Nat) (r : UserRecord)
    (hfind : findOneUser store username = some r)
    (hpw : verifyPassword password r.Password = true) :
    authenticate store username password = Except.ok r ∧
    ∃ resolved,
      verifyBearer store now
          (Credential.bearer (generateJWTToken now (toJSON r))) =
        Except.ok resolved ∧
      resolved.Username = username := by
  have hus : r.Username = username := findOneUser_username hfind
  constructor
  · simp [authenticate, hfind, hpw]
  · refine ⟨r, ?_, hus⟩
    have hcheck :
        tokenCheck jwtSecret now (generateJWTToken now (toJSON r)) =
          Except.ok () := by
      simp [tokenCheck, generateJWTToken, signToken, sevenDays]
    have hsub : (generateJWTToken now (toJSON r)).payload.sub = username := by
      simp [generateJWTToken, signToken, toJSON, hus]
    simp [verifyBearer, hcheck, hsub, hfind]

/-- C1 witness: `alice12` with password `Secr3t!` authenticates, and the
issued token verifies back to `alice12`. -/
theorem authenticate_issue_verify_roundtrip_witness :
    authenticate demoStore "alice12" "Secr3t!" = Except.ok alice ∧
    ∃ resolved,
      verifyBearer demoStore 1000
          (Credential.bearer (generateJWTToken 1000 (toJSON alice))) =
        Except.ok resolved ∧
      resolved.Username = "alice12" :=
  authenticate_issue_verify_roundtrip demoStore "alice12" "Secr3t!" 1000 alice
    (by decide) (by decide)

/-- C2: a token passes the verification strategy's token-level checks
exactly when its signature verifies under the current secret and the
current time is strictly before `exp`; a correctly signed token is rejected
with `Expired` whenever the current time is at or past `exp`; a token
issued by `generateJWTToken` expires seven days after issuance, passes the
checks one second before that deadline and fails with `Expired` one second
after it. -/
theorem token_validity_window (secret : String) (now : Nat) (t : Token)
    (user : UserIdentity) (iat : Nat) :
    (tokenCheck secret now t = Except.ok () ↔
      t.signature = macSign secret (encodePayload t.payload) ∧
        now < t.payload.exp) ∧
    (t.signature = macSign secret (encodePayload t.payload) →
      t.payload.exp ≤ now →
      tokenCheck secret now t = Except.error AuthError.Expired) ∧
    (generateJWTToken iat user).payload.exp = iat + sevenDays ∧
    tokenCheck jwtSecret (iat + sevenDays - 1) (generateJWTToken iat user) =
      Except.ok () ∧
    tokenCheck jwtSecret (iat + sevenDays + 1) (generateJWTToken iat user) =
      Except.error AuthError.Expired := by
  refine ⟨?_, ?_, rfl, ?_, ?_⟩
  · constructor
    · intro hok
      by_cases hs : t.signature = macSign secret (encodePayload t.payload)
      · refine ⟨hs, ?_⟩
        by_cases hexp : t.payload.exp ≤ now
        · simp [tokenCheck, hs, hexp] at hok
        · exact not_le.mp hexp
      · simp [tokenCheck, hs] at hok
    · rintro ⟨hs, hlt⟩
      simp [tokenCheck, hs, not_le.mpr hlt]
  · intro hs hexp
    simp [tokenCheck, hs, hexp]
  · have hlt : iat + sevenDays - 1 < iat + sevenDays := by
      simp [sevenDays]
    simp [tokenCheck, generateJWTToken, signToken, Nat.not_le_of_lt hlt]
  · have hle : iat + sevenDays ≤ iat + sevenDays + 1 := Nat.le_succ _
    simp [tokenCheck, generateJWTToken, signToken, hle]

/-- C2 witness: a token issued at time 0 is correctly signed and is
rejected as `Expired` at time 700000 (past the seven-day deadline of
604800). -/
theorem token_validity_window_witness :
    tokenCheck jwtSecret 700000 (generateJWTToken 0 (toJSON alice)) =
      Except.error AuthError.Expired :=
  (token_validity_window jwtSecret 700000 (generateJWTToken 0 (toJSON alice))
      (toJSON alice) 0).2.1 rfl (by decide)

/-- C10 witness: deleting favorite `m7` of `bob99` removes `bob`'s whole
record from the demo store. -/
theorem deleteFavorite_removes_whole_user_witness :
    ∃ pre post, demoStore = pre ++ bob :: post ∧
      (∀ u ∈ pre, (u.Username == "bob99") = false) ∧
      deleteFavoriteHandler demoStore "bob99" "m7" =
        ({ status := 200, body := RouteBody.doc (some bob) }, pre ++ post) :=
  deleteFavorite_removes_whole_user demoStore "bob99" "m7" bob (by decide)

end MovieApi
